import Mathlib

/-!
Shallow embedding of `pbsmetrics/metrics.go` from the prebid-server repository.

The Go file is purely declarative: a collection of string-backed
restricted-domain label types with their declared constants, a nullary
enumeration accessor per type returning the list of legal values, the
label-bundle structs (`Labels`, `AdapterLabels`, `ImpLabels`,
`RequestLabels`, `UserLabels`), and the `MetricsEngine` recording
interface.

Modelling decisions:
* Go named string types (`type DemandSource string`, ...) become `abbrev`s
  of `String`; each Go constant becomes a Lean `def` with the same name and
  the same string literal.
* Go nullary functions (`func DemandTypes() []DemandSource`) become
  `Unit → List _` functions, so that "two invocations" is expressible.
* `openrtb_ext.BidderName` (external to this file) is a named string type,
  embedded as `String`.
* `AdapterLabels.AdapterErrors` is `map[AdapterError]struct{}` in Go, i.e.
  a finite set of keys (keys are unique, iteration order is unspecified);
  it is embedded as `Finset AdapterError`.
* The Go zero value of a struct gives every string field the value `""`;
  `zeroLabels` embeds the `Labels` zero value.
* The `MetricsEngine` interface declaration is embedded as data: a list of
  method signatures (name, parameter types, optional result type),
  transcribed method by method from the Go declaration.
-/

namespace Pbsmetrics

/-- DemandSource : Demand source enumeration (a Go named string type). -/
abbrev DemandSource := String

/-- ImpMediaType : Media type described in the "imp" JSON object. -/
abbrev ImpMediaType := String

/-- RequestType : Request type enumeration. -/
abbrev RequestType := String

/-- Browser type enumeration. -/
abbrev Browser := String

/-- CookieFlag : User ID cookie exists flag. -/
abbrev CookieFlag := String

/-- RequestStatus : The request return status. -/
abbrev RequestStatus := String

/-- AdapterBid : Whether or not the adapter returned bids. -/
abbrev AdapterBid := String

/-- AdapterError : Errors which may have occurred during the adapter's execution. -/
abbrev AdapterError := String

/-- CacheResult : Cache hit/miss. -/
abbrev CacheResult := String

/-- RequestAction : The setuid request result. -/
abbrev RequestAction := String

/-- BidderName embeds `openrtb_ext.BidderName`, a named string type external to the metrics file. -/
abbrev BidderName := String

/-- PublisherUnknown : Default value for Labels.PubID (metrics.go line 74). -/
def PublisherUnknown : String := "unknown"

/-- DemandWeb constant, value `"web"`. -/
def DemandWeb : DemandSource := "web"

/-- DemandApp constant, value `"app"`. -/
def DemandApp : DemandSource := "app"

/-- DemandUnknown constant, value `"unknown"`. -/
def DemandUnknown : DemandSource := "unknown"

/-- DemandTypes embeds `func DemandTypes() []DemandSource` (metrics.go lines 83-89). -/
def DemandTypes : Unit → List DemandSource := fun _ =>
  [DemandWeb, DemandApp, DemandUnknown]

/-- ReqTypeLegacy constant, value `"legacy"`. -/
def ReqTypeLegacy : RequestType := "legacy"

/-- ReqTypeORTB2Web constant, value `"openrtb2-web"`. -/
def ReqTypeORTB2Web : RequestType := "openrtb2-web"

/-- ReqTypeORTB2App constant, value `"openrtb2-app"`. -/
def ReqTypeORTB2App : RequestType := "openrtb2-app"

/-- ReqTypeAMP constant, value `"amp"`. -/
def ReqTypeAMP : RequestType := "amp"

/-- ReqTypeVideo constant, value `"video"`. -/
def ReqTypeVideo : RequestType := "video"

/-- RequestTypes embeds `func RequestTypes() []RequestType` (metrics.go lines 108-116). -/
def RequestTypes : Unit → List RequestType := fun _ =>
  [ReqTypeLegacy, ReqTypeORTB2Web, ReqTypeORTB2App, ReqTypeAMP, ReqTypeVideo]

/-- ImpTypeBanner constant, value `"banner"`. -/
def ImpTypeBanner : ImpMediaType := "banner"

/-- ImpTypeVideo constant, value `"video"`. -/
def ImpTypeVideo : ImpMediaType := "video"

/-- ImpTypeAudio constant, value `"audio"`. -/
def ImpTypeAudio : ImpMediaType := "audio"

/-- ImpTypeNative constant, value `"native"`. -/
def ImpTypeNative : ImpMediaType := "native"

/-- ImpTypes embeds `func ImpTypes() []ImpMediaType` (metrics.go lines 118-125). -/
def ImpTypes : Unit → List ImpMediaType := fun _ =>
  [ImpTypeBanner, ImpTypeVideo, ImpTypeAudio, ImpTypeNative]

/-- BrowserSafari constant, value `"safari"`. -/
def BrowserSafari : Browser := "safari"

/-- BrowserOther constant, value `"other"`. -/
def BrowserOther : Browser := "other"

/-- BrowserTypes embeds `func BrowserTypes() []Browser` (metrics.go lines 133-138). -/
def BrowserTypes : Unit → List Browser := fun _ =>
  [BrowserSafari, BrowserOther]

/-- CookieFlagYes constant, value `"exists"`. -/
def CookieFlagYes : CookieFlag := "exists"

/-- CookieFlagNo constant, value `"no"`. -/
def CookieFlagNo : CookieFlag := "no"

/-- CookieFlagUnknown constant, value `"unknown"`. -/
def CookieFlagUnknown : CookieFlag := "unknown"

/-- CookieTypes embeds `func CookieTypes() []CookieFlag` (metrics.go lines 147-153). -/
def CookieTypes : Unit → List CookieFlag := fun _ =>
  [CookieFlagYes, CookieFlagNo, CookieFlagUnknown]

/-- RequestStatusOK constant, value `"ok"`. -/
def RequestStatusOK : RequestStatus := "ok"

/-- RequestStatusBadInput constant, value `"badinput"`. -/
def RequestStatusBadInput : RequestStatus := "badinput"

/-- RequestStatusErr constant, value `"err"`. -/
def RequestStatusErr : RequestStatus := "err"

/-- RequestStatusNetworkErr constant, value `"networkerr"`. -/
def RequestStatusNetworkErr : RequestStatus := "networkerr"

/-- RequestStatusBlacklisted constant, value `"blacklistedacctorapp"` (metrics.go line 161). -/
def RequestStatusBlacklisted : RequestStatus := "blacklistedacctorapp"

/-- RequestStatuses embeds `func RequestStatuses() []RequestStatus` (metrics.go lines 164-172). -/
def RequestStatuses : Unit → List RequestStatus := fun _ =>
  [RequestStatusOK, RequestStatusBadInput, RequestStatusErr,
   RequestStatusNetworkErr, RequestStatusBlacklisted]

/-- AdapterBidPresent constant, value `"bid"`. -/
def AdapterBidPresent : AdapterBid := "bid"

/-- AdapterBidNone constant, value `"nobid"`. -/
def AdapterBidNone : AdapterBid := "nobid"

/-- AdapterBids embeds `func AdapterBids() []AdapterBid` (metrics.go lines 180-185). -/
def AdapterBids : Unit → List AdapterBid := fun _ =>
  [AdapterBidPresent, AdapterBidNone]

/-- AdapterErrorBadInput constant, value `"badinput"`. -/
def AdapterErrorBadInput : AdapterError := "badinput"

/-- AdapterErrorBadServerResponse constant, value `"badserverresponse"`. -/
def AdapterErrorBadServerResponse : AdapterError := "badserverresponse"

/-- AdapterErrorTimeout constant, value `"timeout"`. -/
def AdapterErrorTimeout : AdapterError := "timeout"

/-- AdapterErrorFailedToRequestBids constant, value `"failedtorequestbid"`. -/
def AdapterErrorFailedToRequestBids : AdapterError := "failedtorequestbid"

/-- AdapterErrorUnknown constant, value `"unknown_error"` (metrics.go line 193). -/
def AdapterErrorUnknown : AdapterError := "unknown_error"

/-- AdapterErrors embeds `func AdapterErrors() []AdapterError` (metrics.go lines 196-204). -/
def AdapterErrors : Unit → List AdapterError := fun _ =>
  [AdapterErrorBadInput, AdapterErrorBadServerResponse, AdapterErrorTimeout,
   AdapterErrorFailedToRequestBids, AdapterErrorUnknown]

/-- CacheHit constant, value `"hit"`. -/
def CacheHit : CacheResult := "hit"

/-- CacheMiss constant, value `"miss"`. -/
def CacheMiss : CacheResult := "miss"

/-- CacheResults embeds `func CacheResults() []CacheResult` (metrics.go lines 215-220). -/
def CacheResults : Unit → List CacheResult := fun _ =>
  [CacheHit, CacheMiss]

/-- RequestActionSet constant, value `"set"`. -/
def RequestActionSet : RequestAction := "set"

/-- RequestActionOptOut constant, value `"opt_out"`. -/
def RequestActionOptOut : RequestAction := "opt_out"

/-- RequestActionGDPR constant, value `"gdpr"`. -/
def RequestActionGDPR : RequestAction := "gdpr"

/-- RequestActionErr constant, value `"err"`. -/
def RequestActionErr : RequestAction := "err"

/-- RequestActions embeds `func RequestActions() []RequestAction` (metrics.go lines 240-247). -/
def RequestActions : Unit → List RequestAction := fun _ =>
  [RequestActionSet, RequestActionOptOut, RequestActionGDPR, RequestActionErr]

/-- Labels embeds the `Labels` struct (metrics.go lines 10-17). -/
structure Labels where
  Source : DemandSource
  RType : RequestType
  PubID : String
  Browser : Browser
  CookieFlag : CookieFlag
  RequestStatus : RequestStatus
deriving DecidableEq

/-- zeroLabels is the Go zero value of `Labels`: every field of a `Labels`
value that is never explicitly set holds the string zero value `""`. -/
def zeroLabels : Labels := ⟨"", "", "", "", "", ""⟩

/-- AdapterLabels embeds the `AdapterLabels` struct (metrics.go lines 20-29);
its `AdapterErrors` field is `map[AdapterError]struct{}` in Go, a finite set
of keys, embedded as `Finset AdapterError`. -/
structure AdapterLabels where
  Source : DemandSource
  RType : RequestType
  Adapter : BidderName
  PubID : String
  Browser : Browser
  CookieFlag : CookieFlag
  AdapterBids : AdapterBid
  AdapterErrors : Finset AdapterError
deriving DecidableEq

/-- ImpLabels embeds the `ImpLabels` struct (metrics.go lines 32-37). -/
structure ImpLabels where
  BannerImps : Bool
  VideoImps : Bool
  AudioImps : Bool
  NativeImps : Bool
deriving DecidableEq, Fintype

/-- RequestLabels embeds the `RequestLabels` struct (metrics.go lines 40-42). -/
structure RequestLabels where
  RequestStatus : RequestStatus
deriving DecidableEq

/-- UserLabels embeds the `UserLabels` struct (metrics.go lines 223-226). -/
structure UserLabels where
  Action : RequestAction
  Bidder : BidderName
deriving DecidableEq

/-- MethodSig describes one method of a Go interface: its name, the list of
its parameter types, and its result type (`none` when the method returns
nothing). -/
structure MethodSig where
  name : String
  params : List String
  ret : Option String
deriving DecidableEq

/-- metricsEngineMethods transcribes the `MetricsEngine` interface
declaration (metrics.go lines 255-275), method by method in declaration
order. No method in the Go declaration has a result type. -/
def metricsEngineMethods : List MethodSig :=
  [⟨"RecordConnectionAccept", ["bool"], none⟩,
   ⟨"RecordConnectionClose", ["bool"], none⟩,
   ⟨"RecordRequest", ["Labels"], none⟩,
   ⟨"RecordImps", ["ImpLabels"], none⟩,
   ⟨"RecordLegacyImps", ["Labels", "int"], none⟩,
   ⟨"RecordRequestTime", ["Labels", "time.Duration"], none⟩,
   ⟨"RecordAdapterRequest", ["AdapterLabels"], none⟩,
   ⟨"RecordAdapterPanic", ["AdapterLabels"], none⟩,
   ⟨"RecordAdapterBidReceived", ["AdapterLabels", "openrtb_ext.BidType", "bool"], none⟩,
   ⟨"RecordAdapterPrice", ["AdapterLabels", "float64"], none⟩,
   ⟨"RecordAdapterTime", ["AdapterLabels", "time.Duration"], none⟩,
   ⟨"RecordCookieSync", [], none⟩,
   ⟨"RecordAdapterCookieSync", ["openrtb_ext.BidderName", "bool"], none⟩,
   ⟨"RecordUserIDSet", ["UserLabels"], none⟩,
   ⟨"RecordStoredReqCacheResult", ["CacheResult", "int"], none⟩,
   ⟨"RecordStoredImpCacheResult", ["CacheResult", "int"], none⟩,
   ⟨"RecordPrebidCacheRequestTime", ["bool", "time.Duration"], none⟩]

/-- adapterLabelsA is a concrete `AdapterLabels` whose error set is built by
inserting `badinput` and then `timeout`. -/
def adapterLabelsA : AdapterLabels :=
  ⟨DemandWeb, ReqTypeAMP, "appnexus", PublisherUnknown, BrowserOther,
   CookieFlagYes, AdapterBidPresent, {AdapterErrorBadInput, AdapterErrorTimeout}⟩

/-- adapterLabelsB is a concrete `AdapterLabels` whose error set is built by
inserting `timeout` and then `badinput`: the same elements as
`adapterLabelsA` in the opposite insertion order. -/
def adapterLabelsB : AdapterLabels :=
  ⟨DemandWeb, ReqTypeAMP, "appnexus", PublisherUnknown, BrowserOther,
   CookieFlagYes, AdapterBidPresent, {AdapterErrorTimeout, AdapterErrorBadInput}⟩

/-- Claim C1, counterexample: the value `"blacklisted-account-or-app"` is not
among the values returned by `RequestStatuses()`; the declared constant
`RequestStatusBlacklisted` has the string value `"blacklistedacctorapp"`
instead, so the claimed value set is wrong. -/
theorem requestStatuses_claimed_value_absent :
    "blacklisted-account-or-app" ∉ RequestStatuses () ∧
    RequestStatusBlacklisted ∈ RequestStatuses () ∧
    RequestStatusBlacklisted = "blacklistedacctorapp" := by
  decide

/-- Claim C1, amended: the legal values of the RequestStatus dimension are
exactly ok, badinput, err, networkerr, and blacklistedacctorapp, and
`RequestStatuses()` returns exactly this set of values. -/
theorem requestStatuses_values :
    RequestStatuses () =
      ["ok", "badinput", "err", "networkerr", "blacklistedacctorapp"] := by
  rfl

/-- Claim C2, counterexample: the value `"unknown"` is not among the values
returned by `AdapterErrors()`; the declared constant `AdapterErrorUnknown`
has the string value `"unknown_error"` instead, so the claimed value set is
wrong. -/
theorem adapterErrors_claimed_value_absent :
    "unknown" ∉ AdapterErrors () ∧
    AdapterErrorUnknown ∈ AdapterErrors () ∧
    AdapterErrorUnknown = "unknown_error" := by
  decide

/-- Claim C2, amended: the legal values of the AdapterError dimension are
exactly badinput, badserverresponse, timeout, failedtorequestbid, and
unknown_error, and `AdapterErrors()` returns exactly this set of values. -/
theorem adapterErrors_values :
    AdapterErrors () =
      ["badinput", "badserverresponse", "timeout", "failedtorequestbid",
       "unknown_error"] := by
  rfl

/-- Claim C3, counterexample: a `Labels` value whose fields were never
explicitly set by the constructing caller is the Go zero value, whose
`PubID` field is the empty string, not the `PublisherUnknown` sentinel. -/
theorem zeroLabels_pubID_empty :
    zeroLabels.PubID = "" ∧ zeroLabels.PubID ≠ PublisherUnknown := by
  decide

/-- Claim C3, amended: the `PublisherUnknown` constant supplies the sentinel
string `"unknown"`, but a `Labels` value whose `PubID` field was never
explicitly set holds the zero value, the empty string; defaulting `PubID` to
the sentinel is the constructing caller's responsibility and is not enforced
by the `Labels` type itself. -/
theorem publisherUnknown_sentinel_not_defaulted :
    PublisherUnknown = "unknown" ∧ zeroLabels.PubID = "" := by
  decide

/-- Claim C4: for every restricted-domain type of the metrics core, the set
of values returned by its enumeration accessor equals exactly the set of
constants declared for that type. -/
theorem accessors_match_declared_constants :
    (DemandTypes ()).toFinset = {DemandWeb, DemandApp, DemandUnknown} ∧
    (RequestTypes ()).toFinset =
      {ReqTypeLegacy, ReqTypeORTB2Web, ReqTypeORTB2App, ReqTypeAMP, ReqTypeVideo} ∧
    (ImpTypes ()).toFinset =
      {ImpTypeBanner, ImpTypeVideo, ImpTypeAudio, ImpTypeNative} ∧
    (BrowserTypes ()).toFinset = {BrowserSafari, BrowserOther} ∧
    (CookieTypes ()).toFinset = {CookieFlagYes, CookieFlagNo, CookieFlagUnknown} ∧
    (RequestStatuses ()).toFinset =
      {RequestStatusOK, RequestStatusBadInput, RequestStatusErr,
       RequestStatusNetworkErr, RequestStatusBlacklisted} ∧
    (AdapterBids ()).toFinset = {AdapterBidPresent, AdapterBidNone} ∧
    (AdapterErrors ()).toFinset =
      {AdapterErrorBadInput, AdapterErrorBadServerResponse, AdapterErrorTimeout,
       AdapterErrorFailedToRequestBids, AdapterErrorUnknown} ∧
    (CacheResults ()).toFinset = {CacheHit, CacheMiss} ∧
    (RequestActions ()).toFinset =
      {RequestActionSet, RequestActionOptOut, RequestActionGDPR, RequestActionErr} := by
  decide

/-- Claim C5: the `AdapterErrors` field of `AdapterLabels` is a set of
`AdapterError` values: it contains no element twice, and any two
`AdapterLabels` values whose `AdapterErrors` contain exactly the same
elements have equal `AdapterErrors` fields. -/
theorem adapterErrors_field_is_a_set (l1 l2 : AdapterLabels)
    (h : ∀ e : AdapterError, e ∈ l1.AdapterErrors ↔ e ∈ l2.AdapterErrors) :
    l1.AdapterErrors = l2.AdapterErrors ∧ l1.AdapterErrors.val.Nodup :=
  ⟨Finset.ext h, l1.AdapterErrors.nodup⟩

/-- Claim C5 witness: two concrete `AdapterLabels` whose error sets were
built in opposite insertion orders have equal, duplicate-free
`AdapterErrors` fields. -/
theorem adapterErrors_field_is_a_set_witness :
    adapterLabelsA.AdapterErrors = adapterLabelsB.AdapterErrors ∧
    adapterLabelsA.AdapterErrors.val.Nodup :=
  adapterErrors_field_is_a_set adapterLabelsA adapterLabelsB (by
    have h : adapterLabelsA.AdapterErrors = adapterLabelsB.AdapterErrors := by
      decide
    intro e
    rw [h])

/-- Claim C6: the `MetricsEngine` recording interface declares seventeen
operations, and none of them returns any value to its caller. -/
theorem metricsEngine_no_return_values :
    metricsEngineMethods.length = 17 ∧
    metricsEngineMethods.all (fun m => m.ret.isNone) = true := by
  decide

/-- Claim C7: `ImpLabels` consists of exactly four independent boolean
presence flags, one per media type enumerated by `ImpTypes()`, so all 16
combinations of media-type presence are representable, including several
media types present at once. -/
theorem impLabels_four_flags_sixteen_combinations :
    (ImpTypes ()).length = 4 ∧
    Fintype.card ImpLabels = 16 ∧
    ∀ b v a n : Bool, ∃ l : ImpLabels,
      l.BannerImps = b ∧ l.VideoImps = v ∧ l.AudioImps = a ∧ l.NativeImps = n := by
  refine ⟨rfl, by decide, ?_⟩
  intro b v a n
  exact ⟨⟨b, v, a, n⟩, rfl, rfl, rfl, rfl⟩

/-- Claim C8: every invocation of `RequestTypes()` returns the complete list
of legal RequestType values in the stable order legacy, openrtb2-web,
openrtb2-app, amp, video. -/
theorem requestTypes_stable_order :
    ∀ u : Unit,
      RequestTypes u = ["legacy", "openrtb2-web", "openrtb2-app", "amp", "video"] :=
  fun _ => rfl

/-- Claim C9: every enumeration accessor is deterministic and constant: any
two invocations return equal lists. Each accessor builds its result from
declared constants only and reads no mutable state. -/
theorem accessors_constant :
    (∀ u v : Unit, DemandTypes u = DemandTypes v) ∧
    (∀ u v : Unit, RequestTypes u = RequestTypes v) ∧
    (∀ u v : Unit, ImpTypes u = ImpTypes v) ∧
    (∀ u v : Unit, BrowserTypes u = BrowserTypes v) ∧
    (∀ u v : Unit, CookieTypes u = CookieTypes v) ∧
    (∀ u v : Unit, RequestStatuses u = RequestStatuses v) ∧
    (∀ u v : Unit, AdapterBids u = AdapterBids v) ∧
    (∀ u v : Unit, AdapterErrors u = AdapterErrors v) ∧
    (∀ u v : Unit, CacheResults u = CacheResults v) ∧
    (∀ u v : Unit, RequestActions u = RequestActions v) :=
  ⟨fun _ _ => rfl, fun _ _ => rfl, fun _ _ => rfl, fun _ _ => rfl,
   fun _ _ => rfl, fun _ _ => rfl, fun _ _ => rfl, fun _ _ => rfl,
   fun _ _ => rfl, fun _ _ => rfl⟩

/-- Claim C10: within each restricted-domain type the declared constants
have pairwise-distinct string values, so every enumeration accessor returns
a duplicate-free list (the accessor lists contain exactly the declared
constants). -/
theorem accessors_no_duplicates :
    (DemandTypes ()).Nodup ∧ (RequestTypes ()).Nodup ∧ (ImpTypes ()).Nodup ∧
    (BrowserTypes ()).Nodup ∧ (CookieTypes ()).Nodup ∧
    (RequestStatuses ()).Nodup ∧ (AdapterBids ()).Nodup ∧
    (AdapterErrors ()).Nodup ∧ (CacheResults ()).Nodup ∧
    (RequestActions ()).Nodup := by
  decide

end Pbsmetrics
